import Mathlib

/-!
Shallow embedding of the Smart Panchayat backend (`src/server.js`).

Conventions used throughout:
* Timestamps are milliseconds since epoch, modelled as `Nat` (or `Int` where a
  difference may be negative, matching JS number subtraction).
* The JS `Map` called `otpStore` is modelled as an association list whose `set`
  replaces an existing entry in place and whose `delete` filters the key out;
  insertion order is never observed by the server code.
* MySQL tables are modelled as lists of rows; `SELECT ... WHERE x = ?` is
  `List.find?`; `INSERT` with a unique key is guarded by a duplicate check
  mirroring the `ER_DUP_ENTRY` branch.
* Each request handler becomes a pure function from (request inputs, state) to
  (response, new state); a single instant `now` stands for the `Date.now()`
  calls inside one request.
* `Math.floor(100000 + Math.random() * 900000)` is modelled by a draw
  `rand % 900000` from the entropy parameter `rand`, i.e. the floor of
  `Math.random() * 900000`, which ranges over `[0, 899999]`.
-/

/-! ### JS string primitives used by `server.js` -/

/-- JS `String.prototype.startsWith`: the pattern is a leading run of `s`. -/
def jsStartsWith (s pat : String) : Bool :=
  List.isPrefixOf pat.data s.data

/-- JS `String.prototype.substring(n)` for ASCII content: drop `n` chars. -/
def jsDrop (s : String) (n : Nat) : String :=
  ⟨s.data.drop n⟩

/-- Split a character list at every occurrence of `sep`; empty segments are
kept, as with JS `String.prototype.split` on a single-character separator. -/
def splitOnChar (sep : Char) : List Char → List (List Char)
  | [] => [[]]
  | c :: cs =>
    if c = sep then [] :: splitOnChar sep cs
    else
      match splitOnChar sep cs with
      | [] => [[c]]
      | p :: ps => (c :: p) :: ps

/-- JS `s.split(sep)` for a one-character separator. -/
def jsSplit (s : String) (sep : Char) : List String :=
  (splitOnChar sep s.data).map (fun l => ⟨l⟩)

/-- Whitespace skipped by JS `parseInt` (common subset: space, tab, LF, CR). -/
def jsWhitespace (c : Char) : Bool :=
  c = ' ' ∨ c = '\t' ∨ c = '\n' ∨ c = '\r'

/-- Value of a single character as a hex digit, if any. -/
def hexDigitVal (c : Char) : Option Nat :=
  if c.isDigit then some (c.toNat - 48)
  else if 'a' ≤ c ∧ c ≤ 'f' then some (c.toNat - 87)
  else if 'A' ≤ c ∧ c ≤ 'F' then some (c.toNat - 55)
  else none

/-- Value of a character as a digit in the given radix, if valid. -/
def digitVal (radix : Nat) (c : Char) : Option Nat :=
  match hexDigitVal c with
  | some v => if v < radix then some v else none
  | none => none

/-- Consume the longest leading run of valid digits, accumulating a value;
`none` means no digit has been consumed yet (JS `NaN`). -/
def parseDigits (radix : Nat) : List Char → Option Nat → Option Nat
  | [], acc => acc
  | c :: cs, acc =>
    match digitVal radix c with
    | some v => parseDigits radix cs (some (acc.getD 0 * radix + v))
    | none => acc

/-- JS `parseInt(s)` with no radix argument: skip whitespace, optional sign,
optional `0x`/`0X` hex marker, then the longest digit run; `none` is `NaN`. -/
def jsParseInt (s : String) : Option Int :=
  let cs := s.data.dropWhile jsWhitespace
  let signed : Int × List Char :=
    match cs with
    | '-' :: rest => (-1, rest)
    | '+' :: rest => (1, rest)
    | _ => (1, cs)
  let based : Nat × List Char :=
    match signed.2 with
    | '0' :: 'x' :: rest => (16, rest)
    | '0' :: 'X' :: rest => (16, rest)
    | _ => (10, signed.2)
  (parseDigits based.1 based.2 none).map (fun n => signed.1 * (n : Int))

/-! ### `getUserFromToken` (server.js lines 152-185) -/

/-- Result object of `getUserFromToken`; absent JS fields are `none`. -/
structure UserClaims where
  role : String
  id : Option Int := none
  phone : Option String := none
  timestamp : Option String := none
  token : Option String := none
deriving Repr, DecidableEq

/-- The `{ role: 'guest' }` object. -/
def guestUser : UserClaims := { role := "guest" }

/-- `getUserFromToken(authHeader)`: `undefined`/empty header is guest; strip a
`Bearer ` marker; `token-*` is admin; `villager-*` with at least 4 dash-split
parts whose fourth part `parseInt`s is a villager; anything else is guest. -/
def getUserFromToken (authHeader : Option String) : UserClaims :=
  match authHeader with
  | none => guestUser
  | some h =>
    if h = "" then guestUser
    else
      let token := if jsStartsWith h "Bearer " then jsDrop h 7 else h
      if jsStartsWith token "token-" then { role := "admin", token := some token }
      else if jsStartsWith token "villager-" then
        let parts := jsSplit token '-'
        if parts.length ≥ 4 then
          match jsParseInt (parts.getD 3 "") with
          | some vid =>
            { role := "villager", id := some vid, phone := some (parts.getD 2 ""),
              timestamp := some (parts.getD 1 ""), token := some token }
          | none => guestUser
        else guestUser
      else guestUser

/-! ### `GET /api/auth/validate` (server.js lines 1470-1489) -/

/-- Response of the validate endpoint (payload fields that matter here). -/
structure ValidateResponse where
  status : Nat
  success : Bool
  valid : Bool
  user : Option UserClaims
deriving Repr, DecidableEq

/-- `GET /api/auth/validate`: 401 for guests, otherwise 200 with the claims. -/
def authValidate (authHeader : Option String) : ValidateResponse :=
  let user := getUserFromToken authHeader
  if user.role = "guest" then
    { status := 401, success := false, valid := false, user := none }
  else
    { status := 200, success := true, valid := true, user := some user }

/-! ### Villagers table -/

/-- A row of the `villagers` MySQL table. -/
structure Villager where
  id : Nat
  aadhaar : String
  name : String
  phone : String
  village : String
  panchayat : String
  occupation : String
  address : String
deriving Repr, DecidableEq

/-- The `villagers` table. -/
abbrev VillagerDb := List Villager

/-- `SELECT ... FROM villagers WHERE phone = ?` (first matching row). -/
def dbFindByPhone (db : VillagerDb) (phone : String) : Option Villager :=
  db.find? (fun v => v.phone = phone)

/-- `SELECT ... FROM villagers WHERE aadhaar = ?` (first matching row). -/
def dbFindByAadhaar (db : VillagerDb) (aadhaar : String) : Option Villager :=
  db.find? (fun v => v.aadhaar = aadhaar)

/-! ### `POST /api/login` (server.js lines 1111-1185) -/

/-- Outcome of the Aadhaar login endpoint. -/
inductive LoginResult where
  | badRequest
  | adminToken (token : String)
  | villagerToken (token : String)
  | notFoundVillager
deriving Repr, DecidableEq

/-- `POST /api/login`: 12-digit check, sentinel `999999999999` gets
`'token-' + Date.now()`, a known villager gets
`'villager-' + Date.now() + '-' + phone + '-' + id`. -/
def apiLogin (db : VillagerDb) (now : Nat) (aadhaarNumber : String) : LoginResult :=
  if aadhaarNumber.length ≠ 12 then .badRequest
  else if aadhaarNumber = "999999999999" then .adminToken ("token-" ++ Nat.repr now)
  else
    match dbFindByAadhaar db aadhaarNumber with
    | none => .notFoundVillager
    | some villager =>
      .villagerToken ("villager-" ++ Nat.repr now ++ "-" ++ villager.phone ++ "-"
        ++ Nat.repr villager.id)

/-! ### OTP store (server.js line 39) and the OTP endpoints -/

/-- A value stored in `otpStore` by send-otp / resend-otp. -/
structure OtpRecord where
  otp : String
  expiresAt : Nat
  phone : String
  villagerId : Nat
  aadhaarNumber : String
  attempts : Nat
deriving Repr, DecidableEq

/-- The JS `Map` `otpStore`, as an association list keyed by phone. -/
abbrev OtpStore := List (String × OtpRecord)

/-- `otpStore.get(k)`. -/
def storeGet (s : OtpStore) (k : String) : Option OtpRecord :=
  (List.find? (fun p => p.1 = k) s).map Prod.snd

/-- `otpStore.set(k, v)`: replace an existing entry in place, else append. -/
def storeSet (s : OtpStore) (k : String) (v : OtpRecord) : OtpStore :=
  if List.any s (fun p => p.1 = k) then
    List.map (fun p => if p.1 = k then (k, v) else p) s
  else s ++ [(k, v)]

/-- `otpStore.delete(k)`. -/
def storeDelete (s : OtpStore) (k : String) : OtpStore :=
  List.filter (fun p => p.1 ≠ k) s

/-- The structural invariant of a JS `Map`: one entry per key. -/
def keysNodup (s : OtpStore) : Prop :=
  (List.map Prod.fst s).Nodup

/-- `Math.floor(100000 + Math.random() * 900000)` with the floor of
`Math.random() * 900000` supplied as `rand % 900000`. -/
def genOtpCode (rand : Nat) : Nat :=
  100000 + rand % 900000

/-- Outcome of `POST /api/verify/send-otp` and `POST /api/verify/resend-otp`. -/
inductive SendOtpResult where
  | badRequest
  | notRegistered
  | sent (otp : String)
deriving Repr, DecidableEq

/-- `POST /api/verify/send-otp` (lines 1242-1299): 10-digit phone check,
registered-phone check, then store a fresh record with `attempts = 0` and
`expiresAt = now + 5 * 60 * 1000`, overwriting any prior record. -/
def sendOtp (store : OtpStore) (db : VillagerDb) (now rand : Nat) (phone : String) :
    SendOtpResult × OtpStore :=
  if phone.length ≠ 10 then (.badRequest, store)
  else
    match dbFindByPhone db phone with
    | none => (.notRegistered, store)
    | some villager =>
      let code := Nat.repr (genOtpCode rand)
      (.sent code, storeSet store phone
        { otp := code, expiresAt := now + 5 * 60 * 1000, phone := phone,
          villagerId := villager.id, aadhaarNumber := villager.aadhaar, attempts := 0 })

/-- `POST /api/verify/resend-otp` (lines 1408-1467): only a falsy-phone check,
then `otpStore.delete(phone)` BEFORE the registered-phone query, then a fresh
record exactly as in send-otp. -/
def resendOtp (store : OtpStore) (db : VillagerDb) (now rand : Nat) (phone : String) :
    SendOtpResult × OtpStore :=
  if phone = "" then (.badRequest, store)
  else
    let store1 := storeDelete store phone
    match dbFindByPhone db phone with
    | none => (.notRegistered, store1)
    | some villager =>
      let code := Nat.repr (genOtpCode rand)
      (.sent code, storeSet store1 phone
        { otp := code, expiresAt := now + 5 * 60 * 1000, phone := phone,
          villagerId := villager.id, aadhaarNumber := villager.aadhaar, attempts := 0 })

/-- Outcome of `POST /api/verify/check-otp`, one constructor per distinct
response of the handler. -/
inductive CheckOtpResult where
  | badRequest
  | notFound
  | expired
  | tooManyAttempts
  | mismatch (attempts : Nat)
  | villagerNotFound
  | success (token : String) (villagerId : Nat)
deriving Repr, DecidableEq

/-- `POST /api/verify/check-otp` (lines 1302-1405). Note that in JS
`otpData.attempts++` mutates the record object held by the `Map`, so the
increment is visible in the store on the mismatch path (where `set` is also
called, redundantly) and on the villager-row-missing path (where it is not). -/
def checkOtp (store : OtpStore) (db : VillagerDb) (now : Nat) (phone otp : String) :
    CheckOtpResult × OtpStore :=
  if phone = "" ∨ otp = "" then (.badRequest, store)
  else
    match storeGet store phone with
    | none => (.notFound, store)
    | some otpData =>
      if now > otpData.expiresAt then (.expired, storeDelete store phone)
      else if otpData.attempts ≥ 3 then (.tooManyAttempts, storeDelete store phone)
      else
        let bumped : OtpRecord := { otpData with attempts := otpData.attempts + 1 }
        if otpData.otp ≠ otp then (.mismatch bumped.attempts, storeSet store phone bumped)
        else
          match dbFindByPhone db phone with
          | none => (.villagerNotFound, storeSet store phone bumped)
          | some villager =>
            (.success ("villager-" ++ Nat.repr now ++ "-" ++ phone ++ "-"
                ++ Nat.repr villager.id) villager.id,
             storeDelete store phone)

/-! ### Villager CRUD endpoints (admin only) -/

/-- Minimal response shape shared by the villager CRUD handlers. -/
structure CrudResponse where
  status : Nat
  success : Bool
deriving Repr, DecidableEq

/-- Body of `POST /api/villagers`. -/
structure VillagerBody where
  aadhaarNumber : String
  name : String
  phone : String
  village : String
  panchayat : String
  occupation : String
  address : String
deriving Repr, DecidableEq

/-- Body of `PUT /api/villagers/:aadhaarNumber`. -/
structure VillagerUpdate where
  name : String
  phone : String
  village : String
  panchayat : String
  occupation : String
  address : String
deriving Repr, DecidableEq

/-- The auto-increment id handed out by MySQL for a fresh insert. -/
def nextId (db : VillagerDb) : Nat :=
  List.foldr Nat.max 0 (List.map Villager.id db) + 1

/-- `GET /api/villagers` (lines 226-262): admin gate, then a read. -/
def getVillagers (h : Option String) (db : VillagerDb) : CrudResponse × VillagerDb :=
  if (getUserFromToken h).role ≠ "admin" then ({ status := 403, success := false }, db)
  else ({ status := 200, success := true }, db)

/-- `GET /api/villagers/:aadhaarNumber` (lines 265-302). -/
def getVillager (h : Option String) (db : VillagerDb) (aadhaarNumber : String) :
    CrudResponse × VillagerDb :=
  if (getUserFromToken h).role ≠ "admin" then ({ status := 403, success := false }, db)
  else
    match dbFindByAadhaar db aadhaarNumber with
    | none => ({ status := 404, success := false }, db)
    | some _ => ({ status := 200, success := true }, db)

/-- `POST /api/villagers` (lines 305-336): admin gate, required-field check,
insert with `ER_DUP_ENTRY` on a duplicate aadhaar or phone. -/
def postVillagers (h : Option String) (db : VillagerDb) (b : VillagerBody) :
    CrudResponse × VillagerDb :=
  if (getUserFromToken h).role ≠ "admin" then ({ status := 403, success := false }, db)
  else if b.aadhaarNumber = "" ∨ b.name = "" ∨ b.phone = "" ∨ b.village = ""
      ∨ b.panchayat = "" then
    ({ status := 400, success := false }, db)
  else if List.any db (fun v => v.aadhaar = b.aadhaarNumber ∨ v.phone = b.phone) then
    ({ status := 409, success := false }, db)
  else
    ({ status := 200, success := true },
     db ++ [{ id := nextId db, aadhaar := b.aadhaarNumber, name := b.name,
              phone := b.phone, village := b.village, panchayat := b.panchayat,
              occupation := b.occupation, address := b.address }])

/-- `PUT /api/villagers/:aadhaarNumber` (lines 339-369): admin gate, update by
aadhaar, 404 when no row is affected. -/
def putVillager (h : Option String) (db : VillagerDb) (aadhaarNumber : String)
    (b : VillagerUpdate) : CrudResponse × VillagerDb :=
  if (getUserFromToken h).role ≠ "admin" then ({ status := 403, success := false }, db)
  else if List.any db (fun v => v.aadhaar = aadhaarNumber) then
    ({ status := 200, success := true },
     List.map (fun v => if v.aadhaar = aadhaarNumber then
        { v with name := b.name, phone := b.phone, village := b.village,
                 panchayat := b.panchayat, occupation := b.occupation,
                 address := b.address } else v) db)
  else ({ status := 404, success := false }, db)

/-- `DELETE /api/villagers/:aadhaarNumber` (lines 372-398): admin gate, delete
by aadhaar, 404 when no row is affected. -/
def deleteVillager (h : Option String) (db : VillagerDb) (aadhaarNumber : String) :
    CrudResponse × VillagerDb :=
  if (getUserFromToken h).role ≠ "admin" then ({ status := 403, success := false }, db)
  else if List.any db (fun v => v.aadhaar = aadhaarNumber) then
    ({ status := 200, success := true }, List.filter (fun v => v.aadhaar ≠ aadhaarNumber) db)
  else ({ status := 404, success := false }, db)

/-! ### Sensor liveness (server.js lines 112-132 and the status decorations) -/

/-- `SENSOR_ACTIVE_THRESHOLD = 20` (seconds), used only by
`getActiveSensorCount`. -/
def SENSOR_ACTIVE_THRESHOLD : Nat := 20

/-- The filter inside `getActiveSensorCount`:
`(now - lastSample) / 1000 <= SENSOR_ACTIVE_THRESHOLD` over JS numbers,
i.e. `now - lastSample ≤ 20000` in milliseconds. -/
def activeCountFilter (nowMs lastSampleMs : Int) : Bool :=
  nowMs - lastSampleMs ≤ (SENSOR_ACTIVE_THRESHOLD : Int) * 1000

/-- `getActiveSensorCount` applied to the per-device latest sample times
returned by the telemetry query. -/
def getActiveSensorCount (rows : List Int) (nowMs : Int) : Nat :=
  (List.filter (fun t => activeCountFilter nowMs t) rows).length

/-- The per-sensor status decoration used by the listing/dashboard handlers
(lines 460, 547, 609, 712, 1077): `'Offline'` when no sample exists, else
`(Date.now() - t) / 1000 <= 22 ? 'Live' : 'Offline'`. -/
def sensorStatus (lastSampleMs : Option Int) (nowMs : Int) : String :=
  match lastSampleMs with
  | none => "Offline"
  | some t => if nowMs - t ≤ 22 * 1000 then "Live" else "Offline"

/-- The spec's abstract classifier, written from the spec's words:
`Live` iff a sample exists and `(now - lastSampleTimestamp) <= thresholdSeconds`. -/
def specClassify (lastSampleMs : Option Int) (nowMs thresholdSeconds : Int) : Bool :=
  match lastSampleMs with
  | none => false
  | some t => nowMs - t ≤ thresholdSeconds * 1000

example : (getUserFromToken (some "token-12345")).role = "admin" := by decide
example : (getUserFromToken (some "Bearer villager-1-9876543210-7")).role = "villager" := by decide
example : (getUserFromToken (some "villager-1-9876543210")).role = "guest" := by decide
example : (getUserFromToken (some "")).role = "guest" := by decide
example : jsParseInt "5x" = some 5 := by decide
example : jsParseInt "" = none := by decide
example : jsParseInt "0x1A" = some 26 := by decide


/-! ### Helper lemmas about the store model -/

theorem find?_key_map_replace_self (k : String) (v : OtpRecord) :
    ∀ tl : OtpStore, List.any tl (fun p => p.1 = k) = true →
    List.find? (fun p => p.1 = k) (List.map (fun p => if p.1 = k then (k, v) else p) tl)
      = some (k, v) := by
  intro tl
  induction tl with
  | nil => intro hany; simp at hany
  | cons hd tl ih =>
    intro hany
    simp only [List.map_cons]
    by_cases hk : hd.1 = k
    · rw [if_pos hk, List.find?_cons_of_pos _ (by simp)]
    · rw [if_neg hk, List.find?_cons_of_neg _ (by simp [hk])]
      apply ih
      simpa [hk] using hany

theorem find?_key_map_replace_other (k k' : String) (v : OtpRecord) (h : k' ≠ k) :
    ∀ tl : OtpStore,
    List.find? (fun p => p.1 = k') (List.map (fun p => if p.1 = k then (k, v) else p) tl)
      = List.find? (fun p => p.1 = k') tl := by
  intro tl
  induction tl with
  | nil => rfl
  | cons hd tl ih =>
    simp only [List.map_cons]
    by_cases hk : hd.1 = k
    · rw [if_pos hk,
        List.find?_cons_of_neg _ (by simp; exact fun e => h e.symm),
        List.find?_cons_of_neg _ (by simp [hk]; exact fun e => h e.symm)]
      exact ih
    · rw [if_neg hk]
      by_cases hh : hd.1 = k'
      · rw [List.find?_cons_of_pos _ (by simpa using hh),
          List.find?_cons_of_pos _ (by simpa using hh)]
      · rw [List.find?_cons_of_neg _ (by simpa using hh),
          List.find?_cons_of_neg _ (by simpa using hh)]
        exact ih

theorem storeGet_set_self (s : OtpStore) (k : String) (v : OtpRecord) :
    storeGet (storeSet s k v) k = some v := by
  unfold storeSet
  by_cases hany : List.any s (fun p => p.1 = k) = true
  · rw [if_pos hany]
    simp [storeGet, find?_key_map_replace_self k v s hany]
  · rw [if_neg hany]
    have hnone : List.find? (fun p => p.1 = k) s = none := by
      rw [List.find?_eq_none]
      intro x hx
      simp only [Bool.not_eq_true, decide_eq_false_iff_not]
      intro hxk
      exact hany (List.any_eq_true.mpr ⟨x, hx, by simp [hxk]⟩)
    simp [storeGet, List.find?_append, hnone, List.find?]

theorem storeGet_set_other (s : OtpStore) (k k' : String) (v : OtpRecord)
    (h : k' ≠ k) : storeGet (storeSet s k v) k' = storeGet s k' := by
  unfold storeSet
  by_cases hany : List.any s (fun p => p.1 = k) = true
  · rw [if_pos hany]
    simp [storeGet, find?_key_map_replace_other k k' v h s]
  · rw [if_neg hany]
    simp only [storeGet, List.find?_append]
    have : List.find? (fun p => p.1 = k') [(k, v)] = none := by
      rw [List.find?_eq_none]
      intro x hx
      simp only [List.mem_singleton] at hx
      subst hx
      simp only [Bool.not_eq_true, decide_eq_false_iff_not]
      exact fun e => h e.symm
    rw [this, Option.or_none]

theorem storeGet_delete_self (s : OtpStore) (k : String) :
    storeGet (storeDelete s k) k = none := by
  have h : List.find? (fun p => p.1 = k) (List.filter (fun p => p.1 ≠ k) s) = none := by
    rw [List.find?_eq_none]
    intro x hx
    have hne := (List.mem_filter.mp hx).2
    simp only [ne_eq, decide_not, Bool.not_eq_eq_eq_not, Bool.not_true,
      decide_eq_false_iff_not] at hne
    simpa using hne
  simp [storeDelete, storeGet, h]

theorem storeGet_delete_other (s : OtpStore) (k k' : String) (h : k' ≠ k) :
    storeGet (storeDelete s k) k' = storeGet s k' := by
  unfold storeDelete storeGet
  induction s with
  | nil => rfl
  | cons hd tl ih =>
    rw [List.filter_cons]
    by_cases hk : hd.1 = k
    · rw [if_neg (by simpa using hk)]
      rw [List.find?_cons_of_neg _ (by simp [hk]; exact fun e => h e.symm)]
      exact ih
    · rw [if_pos (by simpa using hk)]
      by_cases hh : hd.1 = k'
      · rw [List.find?_cons_of_pos _ (by simpa using hh),
          List.find?_cons_of_pos _ (by simpa using hh)]
      · rw [List.find?_cons_of_neg _ (by simpa using hh),
          List.find?_cons_of_neg _ (by simpa using hh)]
        exact ih

theorem keysNodup_storeSet (s : OtpStore) (k : String) (v : OtpRecord)
    (h : keysNodup s) : keysNodup (storeSet s k v) := by
  unfold storeSet keysNodup
  by_cases hany : List.any s (fun p => p.1 = k) = true
  · rw [if_pos hany]
    have hkeys : List.map Prod.fst (List.map (fun p => if p.1 = k then (k, v) else p) s)
        = List.map Prod.fst s := by
      rw [List.map_map]
      apply List.map_congr_left
      intro x _
      by_cases hx : x.1 = k
      · simp [hx]
      · simp [hx]
    rw [hkeys]
    exact h
  · rw [if_neg hany]
    rw [List.map_append]
    apply List.Nodup.append h (by simp)
    intro a ha hb
    simp only [List.map_cons, List.map_nil, List.mem_singleton] at hb
    subst hb
    obtain ⟨p, hp, hpk⟩ := List.mem_map.mp ha
    exact hany (List.any_eq_true.mpr ⟨p, hp, by simp [hpk]⟩)

theorem keysNodup_storeDelete (s : OtpStore) (k : String)
    (h : keysNodup s) : keysNodup (storeDelete s k) := by
  unfold storeDelete keysNodup
  exact h.sublist (List.Sublist.map Prod.fst (List.filter_sublist s))

/-- Number of entries in the store for a given key. -/
def countKey (s : OtpStore) (k : String) : Nat :=
  List.countP (fun p => p.1 = k) s

theorem countKey_eq_zero_of_not_mem (s : OtpStore) (k : String)
    (h : k ∉ List.map Prod.fst s) : countKey s k = 0 := by
  unfold countKey
  rw [List.countP_eq_zero]
  intro x hx
  simp only [Bool.not_eq_true, decide_eq_false_iff_not]
  intro hxk
  exact h (List.mem_map.mpr ⟨x, hx, hxk⟩)

theorem countKey_eq_one (s : OtpStore) (k : String) (r : OtpRecord)
    (hnd : keysNodup s) (hget : storeGet s k = some r) : countKey s k = 1 := by
  induction s with
  | nil => simp [storeGet, List.find?] at hget
  | cons hd tl ih =>
    unfold keysNodup at hnd
    rw [List.map_cons, List.nodup_cons] at hnd
    by_cases hk : hd.1 = k
    · have htl : countKey tl k = 0 :=
        countKey_eq_zero_of_not_mem tl k (by rw [← hk]; exact hnd.1)
      unfold countKey at htl ⊢
      rw [List.countP_cons_of_pos _ _ (by simpa using hk), htl]
    · unfold storeGet at hget
      rw [List.find?_cons_of_neg _ (by simpa using hk)] at hget
      unfold countKey
      rw [List.countP_cons_of_neg _ _ (by simpa using hk)]
      exact ih hnd.2 hget

/-! ### Length of `Nat.repr` -/

theorem toDigitsCore_len (b : Nat) (hb : 2 ≤ b) :
    ∀ (f n : Nat) (ds : List Char), 0 < n → n < b ^ f →
      (Nat.toDigitsCore b f n ds).length = Nat.log b n + 1 + ds.length := by
  intro f
  induction f with
  | zero =>
    intro n ds hn hlt
    simp only [pow_zero] at hlt
    omega
  | succ f ih =>
    intro n ds hn hlt
    by_cases hdiv : n / b = 0
    · have hnb : n < b := (Nat.div_eq_zero_iff (by omega)).mp hdiv
      have hlog : Nat.log b n = 0 := Nat.log_eq_zero_iff.mpr (Or.inl hnb)
      simp only [Nat.toDigitsCore, hdiv, if_true, List.length_cons, hlog]
      omega
    · have hble : b ≤ n := by
        by_contra hcon
        push_neg at hcon
        exact hdiv (Nat.div_eq_of_lt hcon)
      have hpos : 0 < n / b := Nat.pos_of_ne_zero hdiv
      have hlt' : n / b < b ^ f :=
        Nat.nat_repr_len_aux n b f (by omega) hlt
      have hrec := ih (n / b) (Nat.digitChar (n % b) :: ds) hpos hlt'
      have hlogdiv : Nat.log b (n / b) = Nat.log b n - 1 := Nat.log_div_base b n
      have hlogpos : 0 < Nat.log b n := Nat.log_pos (by omega) hble
      simp only [Nat.toDigitsCore, hdiv, if_false]
      rw [hrec]
      simp only [List.length_cons]
      omega

theorem repr_length_eq (n : Nat) (hn : 0 < n) :
    (Nat.repr n).length = Nat.log 10 n + 1 := by
  have h1 : n < 10 ^ (n + 1) := by
    calc n < 2 ^ n := Nat.lt_two_pow n
    _ ≤ 10 ^ n := Nat.pow_le_pow_left (by omega) n
    _ ≤ 10 ^ (n + 1) := Nat.pow_le_pow_right (by omega) (Nat.le_succ n)
  have h2 := toDigitsCore_len 10 (by omega) (n + 1) n [] hn h1
  simpa [Nat.repr, Nat.toDigits, String.length, List.asString] using h2

theorem repr_len_pos (n : Nat) : 1 ≤ (Nat.repr n).length := by
  rcases Nat.eq_zero_or_pos n with h | h
  · subst h; decide
  · rw [repr_length_eq n h]; omega

theorem repr_length_six (n : Nat) (h1 : 100000 ≤ n) (h2 : n ≤ 999999) :
    (Nat.repr n).length = 6 := by
  rw [repr_length_eq n (by omega)]
  have hlog : Nat.log 10 n = 5 :=
    Nat.log_eq_of_pow_le_of_lt_pow (by norm_num; omega) (by norm_num; omega)
  omega

/-! ### Helper lemmas about tokens -/

theorem jsStartsWith_append_self (p t : String) : jsStartsWith (p ++ t) p = true := by
  simp [jsStartsWith, String.data_append]

theorem token_append_ne_empty (t : String) : "token-" ++ t ≠ "" := by
  intro h
  have hlen := congrArg String.length h
  rw [String.length_append] at hlen
  have h6 : String.length "token-" = 6 := rfl
  have h0 : String.length "" = 0 := rfl
  omega

theorem token_append_not_bearer (t : String) :
    jsStartsWith ("token-" ++ t) "Bearer " = false := by
  simp only [jsStartsWith, String.data_append]
  simp only [List.cons_append, List.isPrefixOf]
  rw [show ('B' == 't') = false from by decide]
  simp

theorem getUserFromToken_token_form (t : String) :
    getUserFromToken (some ("token-" ++ t))
      = { role := "admin", token := some ("token-" ++ t) } := by
  simp only [getUserFromToken]
  rw [if_neg (token_append_ne_empty t)]
  simp only [token_append_not_bearer t, Bool.false_eq_true, if_false,
    jsStartsWith_append_self, if_true]

theorem authValidate_token_form (t : String) :
    authValidate (some ("token-" ++ t))
      = { status := 200, success := true, valid := true,
          user := some { role := "admin", token := some ("token-" ++ t) } } := by
  unfold authValidate
  rw [getUserFromToken_token_form t]
  simp

/-! ### Branch lemmas for `checkOtp` -/

theorem checkOtp_notFound (store : OtpStore) (db : VillagerDb) (now : Nat)
    (phone otp : String) (hp : phone ≠ "") (ho : otp ≠ "")
    (hget : storeGet store phone = none) :
    checkOtp store db now phone otp = (.notFound, store) := by
  unfold checkOtp
  rw [if_neg (by tauto)]
  rw [hget]

theorem checkOtp_expired (store : OtpStore) (db : VillagerDb) (now : Nat)
    (phone otp : String) (rec : OtpRecord) (hp : phone ≠ "") (ho : otp ≠ "")
    (hget : storeGet store phone = some rec) (hexp : now > rec.expiresAt) :
    checkOtp store db now phone otp = (.expired, storeDelete store phone) := by
  unfold checkOtp
  rw [if_neg (by tauto), hget]
  simp only [if_pos hexp]

theorem checkOtp_tooMany (store : OtpStore) (db : VillagerDb) (now : Nat)
    (phone otp : String) (rec : OtpRecord) (hp : phone ≠ "") (ho : otp ≠ "")
    (hget : storeGet store phone = some rec) (hexp : ¬ now > rec.expiresAt)
    (hatt : rec.attempts ≥ 3) :
    checkOtp store db now phone otp = (.tooManyAttempts, storeDelete store phone) := by
  unfold checkOtp
  rw [if_neg (by tauto), hget]
  simp only [if_neg hexp, if_pos hatt]

theorem checkOtp_mismatch (store : OtpStore) (db : VillagerDb) (now : Nat)
    (phone otp : String) (rec : OtpRecord) (hp : phone ≠ "") (ho : otp ≠ "")
    (hget : storeGet store phone = some rec) (hexp : ¬ now > rec.expiresAt)
    (hatt : ¬ rec.attempts ≥ 3) (hne : rec.otp ≠ otp) :
    checkOtp store db now phone otp =
      (.mismatch (rec.attempts + 1),
       storeSet store phone { rec with attempts := rec.attempts + 1 }) := by
  unfold checkOtp
  rw [if_neg (by tauto), hget]
  simp only [if_neg hexp, if_neg hatt, if_pos hne]

theorem checkOtp_villagerMissing (store : OtpStore) (db : VillagerDb) (now : Nat)
    (phone otp : String) (rec : OtpRecord) (hp : phone ≠ "") (ho : otp ≠ "")
    (hget : storeGet store phone = some rec) (hexp : ¬ now > rec.expiresAt)
    (hatt : ¬ rec.attempts ≥ 3) (heq : rec.otp = otp)
    (hdb : dbFindByPhone db phone = none) :
    checkOtp store db now phone otp =
      (.villagerNotFound,
       storeSet store phone { rec with attempts := rec.attempts + 1 }) := by
  unfold checkOtp
  rw [if_neg (by tauto), hget]
  simp only [if_neg hexp, if_neg hatt, heq, ne_eq, not_true_eq_false, if_false, hdb]

theorem checkOtp_success (store : OtpStore) (db : VillagerDb) (now : Nat)
    (phone otp : String) (rec : OtpRecord) (v : Villager) (hp : phone ≠ "")
    (ho : otp ≠ "") (hget : storeGet store phone = some rec)
    (hexp : ¬ now > rec.expiresAt) (hatt : ¬ rec.attempts ≥ 3)
    (heq : rec.otp = otp) (hdb : dbFindByPhone db phone = some v) :
    checkOtp store db now phone otp =
      (.success ("villager-" ++ Nat.repr now ++ "-" ++ phone ++ "-" ++ Nat.repr v.id) v.id,
       storeDelete store phone) := by
  unfold checkOtp
  rw [if_neg (by tauto), hget]
  simp only [if_neg hexp, if_neg hatt, heq, ne_eq, not_true_eq_false, if_false, hdb]

/-! ### Claim C2 -/

/-- C2 counterexample: the admin token with issuedAt 0 (arbitrarily far in the
past) is accepted by validate with HTTP 200 and classified as admin, so a token
whose timestamp lies further in the past than any session lifetime is NOT
rejected, contradicting the claim. -/
theorem c2_stale_token_accepted :
    (authValidate (some "token-0")).valid = true
  ∧ (authValidate (some "token-0")).status = 200
  ∧ (getUserFromToken (some "token-0")).role = "admin" := by
  decide

/-- C2 amended: token validation performs no expiry check at all. For every
timestamp string t, the admin token `token-<t>` is classified as admin and
`GET /api/auth/validate` accepts it with 200/valid; validation is a pure
function of the header, so a repeated call returns the same accepting
response (nothing is ever rejected for age, hence nothing to resurrect). -/
theorem c2_validation_has_no_expiry (t : String) :
    (getUserFromToken (some ("token-" ++ t))).role = "admin"
  ∧ (authValidate (some ("token-" ++ t))).valid = true
  ∧ (authValidate (some ("token-" ++ t))).status = 200 := by
  refine ⟨?_, ?_, ?_⟩
  · rw [getUserFromToken_token_form t]
  · rw [authValidate_token_form t]
  · rw [authValidate_token_form t]

/-! ### Claim C3 -/

/-- C3: every string beginning with `token-` is classified as admin by
`getUserFromToken`, whether or not the server ever issued it; in particular
the client-constructed string `token-` is accepted as an admin session by
validate although no `POST /api/login` response (admin or villager) can ever
equal it, as issued tokens embed a nonempty decimal timestamp. -/
theorem c3_forgeable_admin_token :
    (∀ t : String, (getUserFromToken (some ("token-" ++ t))).role = "admin")
  ∧ (getUserFromToken (some "token-")).role = "admin"
  ∧ (authValidate (some "token-")).valid = true
  ∧ ∀ (db : VillagerDb) (now : Nat) (a tok : String),
      (apiLogin db now a = .adminToken tok → tok ≠ "token-")
      ∧ (apiLogin db now a = .villagerToken tok → tok ≠ "token-") := by
  refine ⟨fun t => by rw [getUserFromToken_token_form t], by decide, by decide, ?_⟩
  intro db now a tok
  unfold apiLogin
  by_cases hlen : a.length ≠ 12
  · rw [if_pos hlen]
    constructor <;> (intro h; simp at h)
  · rw [if_neg hlen]
    by_cases hadm : a = "999999999999"
    · rw [if_pos hadm]
      constructor
      · intro h
        injection h with h'
        intro he
        rw [← h'] at he
        have hl := congrArg String.length he
        rw [String.length_append] at hl
        have h6 : String.length "token-" = 6 := rfl
        have hrep := repr_len_pos now
        omega
      · intro h; simp at h
    · rw [if_neg hadm]
      cases hfind : dbFindByAadhaar db a with
      | none => constructor <;> (intro h; simp at h)
      | some villager =>
        constructor
        · intro h; simp at h
        · intro h
          injection h with h'
          intro he
          rw [← h'] at he
          have hl := congrArg String.length he
          simp only [String.length_append] at hl
          have h9 : String.length "villager-" = 9 := rfl
          have h1 : String.length "-" = 1 := rfl
          have h6 : String.length "token-" = 6 := rfl
          have hrep := repr_len_pos now
          have hrep2 := repr_len_pos villager.id
          omega

/-! ### Claim C4 -/

/-- C4 counterexample: a sample aged exactly 21 s is classified `Live` by the
per-sensor status decoration (its hardcoded bound is 22 s) while the
dashboard's active-sensor count (bound `SENSOR_ACTIVE_THRESHOLD = 20` s)
excludes it, so the boundary the claim states for the decoration is wrong and
the two sites are NOT governed by the same single threshold constant. -/
theorem c4_two_thresholds_disagree :
    sensorStatus (some 0) 21000 = "Live" ∧ getActiveSensorCount [0] 21000 = 0 := by
  decide

/-- C4 amended: liveness is a pure function of the last sample timestamp, the
current time and a threshold, with an inclusive boundary and `Offline`
whenever no sample exists — but the per-sensor status decoration uses a
hardcoded 22 s bound while the dashboard's active-sensor count uses the
`SENSOR_ACTIVE_THRESHOLD = 20` s constant; each site matches the spec's
`classify` contract at its own threshold. -/
theorem c4_liveness_contract (last : Option Int) (t nowMs : Int) (rows : List Int) :
    sensorStatus last nowMs = (if specClassify last nowMs 22 then "Live" else "Offline")
  ∧ sensorStatus none nowMs = "Offline"
  ∧ (sensorStatus (some t) nowMs = "Live" ↔ nowMs - t ≤ 22 * 1000)
  ∧ getActiveSensorCount rows nowMs
      = (List.filter (fun ts => specClassify (some ts) nowMs 20) rows).length
  ∧ activeCountFilter nowMs t = specClassify (some t) nowMs 20
  ∧ specClassify (some (nowMs - 20 * 1000)) nowMs 20 = true
  ∧ specClassify (some (nowMs - 21 * 1000)) nowMs 20 = false := by
  refine ⟨?_, rfl, ?_, ?_, ?_, ?_, ?_⟩
  · cases last with
    | none => rfl
    | some t' =>
      by_cases h : nowMs - t' ≤ 22 * 1000
      · simp [sensorStatus, specClassify, h]
      · simp [sensorStatus, specClassify, h]
  · constructor
    · intro h
      by_contra hcon
      simp [sensorStatus, hcon] at h
      omega
    · intro h
      simp only [sensorStatus]
      rw [if_pos h]
  · rfl
  · rfl
  · simp [specClassify]
  · simp [specClassify]

/-! ### Claim C7 -/

/-- C7 counterexample: the three-part villager token that omits the optional
villagerId suffix is classified as guest (and rejected 401 by validate), both
raw and in `Bearer` form, contradicting the claim that it is accepted. -/
theorem c7_three_part_token_rejected :
    (getUserFromToken (some "villager-1700000000000-9876543210")).role = "guest"
  ∧ (authValidate (some "villager-1700000000000-9876543210")).status = 401
  ∧ (getUserFromToken (some "Bearer villager-1700000000000-9876543210")).role = "guest" := by
  decide

/-- Any string starting with `villager-` has the nine prefix characters
followed by some tail. -/
theorem startsWith_villager_cons (s : String)
    (h : jsStartsWith s "villager-" = true) :
    ∃ rest : List Char,
      s.data = 'v' :: 'i' :: 'l' :: 'l' :: 'a' :: 'g' :: 'e' :: 'r' :: '-' :: rest := by
  have h' : "villager-".data <+: s.data := by simpa [jsStartsWith] using h
  obtain ⟨t, ht⟩ := h'
  refine ⟨t, ?_⟩
  rw [← ht]
  rfl

/-- A `villager-`-prefixed token is nonempty. -/
theorem villager_token_ne_empty (s : String)
    (h : jsStartsWith s "villager-" = true) : s ≠ "" := by
  obtain ⟨rest, hd⟩ := startsWith_villager_cons s h
  intro he
  rw [he] at hd
  simp at hd

/-- A `villager-`-prefixed token does not start with `Bearer `. -/
theorem villager_token_not_bearer (s : String)
    (h : jsStartsWith s "villager-" = true) : jsStartsWith s "Bearer " = false := by
  obtain ⟨rest, hd⟩ := startsWith_villager_cons s h
  simp only [jsStartsWith, hd]
  simp only [List.isPrefixOf]
  rw [show ('B' == 'v') = false from by decide]
  simp

/-- A `villager-`-prefixed token does not start with `token-`. -/
theorem villager_token_not_admin (s : String)
    (h : jsStartsWith s "villager-" = true) : jsStartsWith s "token-" = false := by
  obtain ⟨rest, hd⟩ := startsWith_villager_cons s h
  simp only [jsStartsWith, hd]
  simp only [List.isPrefixOf]
  rw [show ('t' == 'v') = false from by decide]
  simp

/-- Prefixing `Bearer ` never yields the empty header. -/
theorem bearer_append_ne_empty (s : String) : "Bearer " ++ s ≠ "" := by
  intro h
  have hlen := congrArg String.length h
  rw [String.length_append] at hlen
  have h7 : String.length "Bearer " = 7 := rfl
  have h0 : String.length "" = 0 := rfl
  omega

/-- Stripping the `Bearer ` marker recovers the raw token. -/
theorem jsDrop_bearer_append (s : String) : jsDrop ("Bearer " ++ s) 7 = s := rfl

/-- A `villager-`-prefixed token with fewer than four dash parts is classified
guest, raw and in `Bearer` form. -/
theorem classify_villager_reject (s : String)
    (hv : jsStartsWith s "villager-" = true)
    (hl : ¬ (jsSplit s '-').length ≥ 4) :
    getUserFromToken (some s) = guestUser
  ∧ getUserFromToken (some ("Bearer " ++ s)) = guestUser := by
  have hne := villager_token_ne_empty s hv
  have hnb := villager_token_not_bearer s hv
  have hna := villager_token_not_admin s hv
  constructor
  · simp only [getUserFromToken]
    rw [if_neg hne]
    simp only [hnb, Bool.false_eq_true, if_false]
    simp only [hna, Bool.false_eq_true, if_false]
    simp only [hv, if_true]
    rw [if_neg hl]
  · simp only [getUserFromToken]
    rw [if_neg (bearer_append_ne_empty s)]
    simp only [jsStartsWith_append_self, if_true]
    rw [jsDrop_bearer_append]
    simp only [hna, Bool.false_eq_true, if_false]
    simp only [hv, if_true]
    rw [if_neg hl]

/-- A `villager-`-prefixed token with at least four dash parts and a parseable
fourth part is classified villager with that id, raw and in `Bearer` form. -/
theorem classify_villager_accept (s : String) (vid : Int)
    (hv : jsStartsWith s "villager-" = true)
    (hl : (jsSplit s '-').length ≥ 4)
    (hp : jsParseInt ((jsSplit s '-').getD 3 "") = some vid) :
    getUserFromToken (some s)
      = { role := "villager", id := some vid, phone := some ((jsSplit s '-').getD 2 ""),
          timestamp := some ((jsSplit s '-').getD 1 ""), token := some s }
  ∧ getUserFromToken (some ("Bearer " ++ s))
      = { role := "villager", id := some vid, phone := some ((jsSplit s '-').getD 2 ""),
          timestamp := some ((jsSplit s '-').getD 1 ""), token := some s } := by
  have hne := villager_token_ne_empty s hv
  have hnb := villager_token_not_bearer s hv
  have hna := villager_token_not_admin s hv
  constructor
  · simp only [getUserFromToken]
    rw [if_neg hne]
    simp only [hnb, Bool.false_eq_true, if_false]
    simp only [hna, Bool.false_eq_true, if_false]
    simp only [hv, if_true]
    rw [if_pos hl, hp]
  · simp only [getUserFromToken]
    rw [if_neg (bearer_append_ne_empty s)]
    simp only [jsStartsWith_append_self, if_true]
    rw [jsDrop_bearer_append]
    simp only [hna, Bool.false_eq_true, if_false]
    simp only [hv, if_true]
    rw [if_pos hl, hp]

/-- C7 amended: a villager bearer token must carry the villagerId suffix.
Universally: every `villager-`-prefixed token with exactly three
dash-separated parts (the form that omits the suffix) is rejected as guest,
both raw and as `Bearer <token>`; every `villager-`-prefixed token with at
least four parts whose fourth part parses as an integer is accepted as a
villager session with that id, in both transports; and ONLY such tokens are
accepted — whenever any header is classified as villager, its stripped token
starts with `villager-`, has at least four dash parts, and its fourth part
parses to the session id. -/
theorem c7_villager_token_requires_id :
    (∀ s : String, jsStartsWith s "villager-" = true →
        (jsSplit s '-').length = 3 →
        (getUserFromToken (some s)).role = "guest"
      ∧ (getUserFromToken (some ("Bearer " ++ s))).role = "guest")
  ∧ (∀ (s : String) (vid : Int), jsStartsWith s "villager-" = true →
        (jsSplit s '-').length ≥ 4 →
        jsParseInt ((jsSplit s '-').getD 3 "") = some vid →
        (getUserFromToken (some s)).role = "villager"
      ∧ (getUserFromToken (some s)).id = some vid
      ∧ (getUserFromToken (some ("Bearer " ++ s))).role = "villager"
      ∧ (getUserFromToken (some ("Bearer " ++ s))).id = some vid)
  ∧ (∀ h : Option String, (getUserFromToken h).role = "villager" →
        ∃ s : String, h = some s
          ∧ jsStartsWith (if jsStartsWith s "Bearer " then jsDrop s 7 else s)
              "villager-" = true
          ∧ (jsSplit (if jsStartsWith s "Bearer " then jsDrop s 7 else s) '-').length ≥ 4
          ∧ ∃ vid : Int,
              jsParseInt
                ((jsSplit (if jsStartsWith s "Bearer " then jsDrop s 7 else s) '-').getD 3 "")
                = some vid
              ∧ (getUserFromToken h).id = some vid) := by
  refine ⟨?_, ?_, ?_⟩
  · intro s hv hl
    have h := classify_villager_reject s hv (by omega)
    rw [h.1, h.2]
    exact ⟨rfl, rfl⟩
  · intro s vid hv hl hp
    have h := classify_villager_accept s vid hv hl hp
    rw [h.1, h.2]
    exact ⟨rfl, rfl, rfl, rfl⟩
  · intro h hrole
    cases h with
    | none => exact absurd hrole (by decide)
    | some s =>
      refine ⟨s, rfl, ?_⟩
      revert hrole
      simp only [getUserFromToken]
      by_cases h0 : s = ""
      · rw [if_pos h0]
        intro hrole
        exact absurd hrole (by decide)
      · rw [if_neg h0]
        cases ht : jsStartsWith (if jsStartsWith s "Bearer " then jsDrop s 7 else s)
            "token-" with
        | true =>
          simp only [ht, if_true]
          intro hrole
          exact absurd hrole (by decide)
        | false =>
          simp only [ht, Bool.false_eq_true, if_false]
          cases hv : jsStartsWith (if jsStartsWith s "Bearer " then jsDrop s 7 else s)
              "villager-" with
          | false =>
            simp only [hv, Bool.false_eq_true, if_false]
            intro hrole
            exact absurd hrole (by decide)
          | true =>
            simp only [hv, if_true]
            by_cases hl : (jsSplit (if jsStartsWith s "Bearer " then jsDrop s 7 else s)
                '-').length ≥ 4
            · rw [if_pos hl]
              cases hp : jsParseInt
                  ((jsSplit (if jsStartsWith s "Bearer " then jsDrop s 7 else s)
                    '-').getD 3 "") with
              | none =>
                simp only [hp]
                intro hrole
                exact absurd hrole (by decide)
              | some vid =>
                simp only [hp]
                intro _
                exact ⟨trivial, hl, vid, rfl, rfl⟩
            · rw [if_neg hl]
              intro hrole
              exact absurd hrole (by decide)

/-- C7 witness: the theorem applied at concrete tokens — the three-part token
is rejected in both transports, the four-part token is accepted with id 42. -/
theorem c7_villager_token_requires_id_witness :
    (getUserFromToken (some "villager-1-5551234567")).role = "guest"
  ∧ (getUserFromToken (some ("Bearer " ++ "villager-1-5551234567"))).role = "guest"
  ∧ (getUserFromToken (some "villager-1-5551234567-42")).role = "villager"
  ∧ (getUserFromToken (some "villager-1-5551234567-42")).id = some 42 := by
  have h1 := c7_villager_token_requires_id.1 "villager-1-5551234567"
    (by decide) (by decide)
  have h2 := c7_villager_token_requires_id.2.1 "villager-1-5551234567-42" 42
    (by decide) (by decide) (by decide)
  exact ⟨h1.1, h1.2, h2.1, h2.2.1⟩

/-! ### Concrete fixtures for witnesses -/

/-- A registered villager used by concrete witnesses. -/
def demoVillager : Villager :=
  { id := 7, aadhaar := "123412341234", name := "Asha", phone := "9876543210",
    village := "Kumarakom", panchayat := "Kavalam", occupation := "", address := "" }

/-- An issued OTP record for the demo villager. -/
def demoRecord : OtpRecord :=
  { otp := "123456", expiresAt := 2000, phone := "9876543210", villagerId := 7,
    aadhaarNumber := "123412341234", attempts := 0 }

/-- An OTP store holding exactly the demo record. -/
def demoStore : OtpStore := [("9876543210", demoRecord)]

/-- A villagers table holding exactly the demo villager. -/
def demoDb : VillagerDb := [demoVillager]

/-! ### Claim C1 -/

/-- C1: `POST /api/verify/check-otp` follows the exact case order of the spec
for every phone and supplied code (given nonempty inputs and a registered
phone): missing record fails NotFound; else `now > expiresAt` fails Expired
and deletes; else `attemptCount >= 3` fails TooManyAttempts and deletes;
otherwise the attempt count is incremented and the call either fails Mismatch
retaining the record, or succeeds and deletes the record, so a second verify
with the same correct code (at any later time) fails NotFound. -/
theorem c1_checkOtp_case_order (store : OtpStore) (db : VillagerDb) (now : Nat)
    (phone otp : String) (hp : phone ≠ "") (ho : otp ≠ "") :
    (storeGet store phone = none → checkOtp store db now phone otp = (.notFound, store))
  ∧ (∀ rec : OtpRecord, storeGet store phone = some rec →
      (now > rec.expiresAt →
        checkOtp store db now phone otp = (.expired, storeDelete store phone))
    ∧ (now ≤ rec.expiresAt → rec.attempts ≥ 3 →
        checkOtp store db now phone otp = (.tooManyAttempts, storeDelete store phone))
    ∧ (now ≤ rec.expiresAt → rec.attempts < 3 → rec.otp ≠ otp →
        checkOtp store db now phone otp =
          (.mismatch (rec.attempts + 1),
           storeSet store phone { rec with attempts := rec.attempts + 1 }))
    ∧ (∀ v : Villager, now ≤ rec.expiresAt → rec.attempts < 3 → rec.otp = otp →
        dbFindByPhone db phone = some v →
        checkOtp store db now phone otp =
          (.success ("villager-" ++ Nat.repr now ++ "-" ++ phone ++ "-" ++ Nat.repr v.id)
            v.id, storeDelete store phone)
        ∧ ∀ now2 : Nat,
            checkOtp (checkOtp store db now phone otp).2 db now2 phone otp
              = (.notFound, (checkOtp store db now phone otp).2))) := by
  constructor
  · intro hget
    exact checkOtp_notFound store db now phone otp hp ho hget
  · intro rec hget
    refine ⟨?_, ?_, ?_, ?_⟩
    · intro hexp
      exact checkOtp_expired store db now phone otp rec hp ho hget hexp
    · intro hexp hatt
      exact checkOtp_tooMany store db now phone otp rec hp ho hget (by omega) hatt
    · intro hexp hatt hne
      exact checkOtp_mismatch store db now phone otp rec hp ho hget (by omega) (by omega) hne
    · intro v hexp hatt heq hdb
      have hsucc := checkOtp_success store db now phone otp rec v hp ho hget
        (by omega) (by omega) heq hdb
      refine ⟨hsucc, ?_⟩
      intro now2
      rw [hsucc]
      exact checkOtp_notFound _ db now2 phone otp hp ho (storeGet_delete_self store phone)

/-- C1 witness: at the concrete demo state a correct-code verify succeeds and
deletes the record. -/
theorem c1_checkOtp_case_order_witness :
    checkOtp demoStore demoDb 1000 "9876543210" "123456"
      = (.success ("villager-" ++ Nat.repr 1000 ++ "-" ++ "9876543210" ++ "-"
          ++ Nat.repr 7) 7, storeDelete demoStore "9876543210") := by
  have h := c1_checkOtp_case_order demoStore demoDb 1000 "9876543210" "123456"
    (by decide) (by decide)
  exact ((h.2 demoRecord (by decide)).2.2.2 demoVillager (by decide) (by decide)
    (by decide) (by decide)).1

/-! ### Claim C5 -/

/-- C5: the stored attempt count increases by exactly 1 on a Mismatch call
(the record is retained), a NotFound call leaves the store unchanged, Expired
and TooManyAttempts delete the record, and a record issued with 0 attempts is
gone after the 4th consecutive wrong-code verify, so a 5th verify fails
NotFound. -/
theorem c5_attempt_counting (store : OtpStore) (db : VillagerDb) (now : Nat)
    (phone otp : String) (hp : phone ≠ "") (ho : otp ≠ "") :
    (∀ rec : OtpRecord, storeGet store phone = some rec → now ≤ rec.expiresAt →
      rec.attempts < 3 → rec.otp ≠ otp →
      storeGet (checkOtp store db now phone otp).2 phone
        = some { rec with attempts := rec.attempts + 1 })
  ∧ (storeGet store phone = none → (checkOtp store db now phone otp).2 = store)
  ∧ (∀ rec : OtpRecord, storeGet store phone = some rec → now > rec.expiresAt →
      storeGet (checkOtp store db now phone otp).2 phone = none)
  ∧ (∀ rec : OtpRecord, storeGet store phone = some rec → now ≤ rec.expiresAt →
      rec.attempts ≥ 3 →
      storeGet (checkOtp store db now phone otp).2 phone = none)
  ∧ (∀ (rec : OtpRecord) (s1 s2 s3 : OtpStore), storeGet store phone = some rec →
      rec.attempts = 0 → now ≤ rec.expiresAt → rec.otp ≠ otp →
      s1 = (checkOtp store db now phone otp).2 →
      s2 = (checkOtp s1 db now phone otp).2 →
      s3 = (checkOtp s2 db now phone otp).2 →
      checkOtp s3 db now phone otp = (.tooManyAttempts, storeDelete s3 phone)
      ∧ checkOtp (storeDelete s3 phone) db now phone otp
          = (.notFound, storeDelete s3 phone)) := by
  refine ⟨?_, ?_, ?_, ?_, ?_⟩
  · intro rec hget hexp hatt hne
    rw [checkOtp_mismatch store db now phone otp rec hp ho hget (by omega) (by omega) hne]
    exact storeGet_set_self store phone _
  · intro hget
    rw [checkOtp_notFound store db now phone otp hp ho hget]
  · intro rec hget hexp
    rw [checkOtp_expired store db now phone otp rec hp ho hget hexp]
    exact storeGet_delete_self store phone
  · intro rec hget hexp hatt
    rw [checkOtp_tooMany store db now phone otp rec hp ho hget (by omega) hatt]
    exact storeGet_delete_self store phone
  · intro rec s1 s2 s3 hget hatt0 hexp hne hs1 hs2 hs3
    have h1 := checkOtp_mismatch store db now phone otp rec hp ho hget (by omega)
      (by omega) hne
    have hg1 : storeGet s1 phone = some { rec with attempts := rec.attempts + 1 } := by
      rw [hs1, h1]
      exact storeGet_set_self store phone _
    have h2 := checkOtp_mismatch s1 db now phone otp _ hp ho hg1 (by simpa using hexp)
      (by simp; omega) (by simpa using hne)
    have hg2 : storeGet s2 phone
        = some { rec with attempts := rec.attempts + 1 + 1 } := by
      rw [hs2, h2]
      exact storeGet_set_self s1 phone _
    have h3 := checkOtp_mismatch s2 db now phone otp _ hp ho hg2 (by simpa using hexp)
      (by simp; omega) (by simpa using hne)
    have hg3 : storeGet s3 phone
        = some { rec with attempts := rec.attempts + 1 + 1 + 1 } := by
      rw [hs3, h3]
      exact storeGet_set_self s2 phone _
    have h4 := checkOtp_tooMany s3 db now phone otp _ hp ho hg3 (by simpa using hexp)
      (by simp)
    refine ⟨h4, ?_⟩
    exact checkOtp_notFound _ db now phone otp hp ho (storeGet_delete_self s3 phone)

/-- C5 witness: at the concrete demo state a wrong-code verify bumps the
stored attempt count from 0 to 1. -/
theorem c5_attempt_counting_witness :
    storeGet (checkOtp demoStore demoDb 1000 "9876543210" "000000").2 "9876543210"
      = some { demoRecord with attempts := 1 } := by
  have h := c5_attempt_counting demoStore demoDb 1000 "9876543210" "000000"
    (by decide) (by decide)
  exact h.1 demoRecord (by decide) (by decide) (by decide) (by decide)

/-! ### Claim C9 -/

/-- C9: `POST /api/verify/resend-otp` deletes any existing OTP record for the
phone BEFORE checking registration, so for a phone holding an active record
but absent from the villagers table the call answers not-registered while the
record has been destroyed, and a subsequent verify fails NotFound. -/
theorem c9_resend_deletes_before_check (store : OtpStore) (db : VillagerDb)
    (now rand : Nat) (phone : String) (rec : OtpRecord) (hp : phone ≠ "")
    (_hrec : storeGet store phone = some rec)
    (hreg : dbFindByPhone db phone = none) :
    resendOtp store db now rand phone = (.notRegistered, storeDelete store phone)
  ∧ storeGet (resendOtp store db now rand phone).2 phone = none
  ∧ (∀ (now2 : Nat) (otp2 : String), otp2 ≠ "" →
      checkOtp (resendOtp store db now rand phone).2 db now2 phone otp2
        = (.notFound, (resendOtp store db now rand phone).2)) := by
  have hmain : resendOtp store db now rand phone
      = (.notRegistered, storeDelete store phone) := by
    unfold resendOtp
    rw [if_neg hp]
    simp only [hreg]
  refine ⟨hmain, ?_, ?_⟩
  · rw [hmain]
    exact storeGet_delete_self store phone
  · intro now2 otp2 ho2
    rw [hmain]
    exact checkOtp_notFound _ db now2 phone otp2 hp ho2 (storeGet_delete_self store phone)

/-- C9 witness: concrete run with an orphaned OTP record for a phone missing
from the villagers table. -/
theorem c9_resend_deletes_before_check_witness :
    resendOtp [("5550001111", demoRecord)] demoDb 1000 0 "5550001111"
      = (.notRegistered, storeDelete [("5550001111", demoRecord)] "5550001111") := by
  have h := c9_resend_deletes_before_check [("5550001111", demoRecord)] demoDb 1000 0
    "5550001111" demoRecord (by decide) (by decide) (by decide)
  exact h.1

/-! ### Claim C6 -/

/-- Every branch of `checkOtp` leaves the store with nodup keys. -/
theorem keysNodup_checkOtp (store : OtpStore) (db : VillagerDb) (now : Nat)
    (phone otp : String) (hnd : keysNodup store) :
    keysNodup (checkOtp store db now phone otp).2 := by
  unfold checkOtp
  split
  · exact hnd
  · split
    · exact hnd
    · split
      · exact keysNodup_storeDelete _ _ hnd
      · split
        · exact keysNodup_storeDelete _ _ hnd
        · split
          · exact keysNodup_storeSet _ _ _ hnd
          · split
            · exact keysNodup_storeSet _ _ _ hnd
            · exact keysNodup_storeDelete _ _ hnd

/-- C6: a successful OTP issue (send-otp, and likewise resend-otp) leaves the
phone mapped to exactly one record with `attempts = 0`,
`expiresAt = now + 5 minutes` and a code that is the decimal string of a
number in [100000, 999999] (hence 6 digits), overwriting any prior record and
leaving every other phone untouched; and send-otp, resend-otp and check-otp
all preserve the one-record-per-phone invariant of the registry. -/
theorem c6_one_record_per_phone (store : OtpStore) (db : VillagerDb)
    (now rand : Nat) (phone : String) (v : Villager)
    (hreg : dbFindByPhone db phone = some v) (hlen : phone.length = 10)
    (hnd : keysNodup store) :
    (∃ code : String,
        sendOtp store db now rand phone = (.sent code,
          storeSet store phone
            { otp := code, expiresAt := now + 5 * 60 * 1000, phone := phone,
              villagerId := v.id, aadhaarNumber := v.aadhaar, attempts := 0 })
      ∧ storeGet (sendOtp store db now rand phone).2 phone
          = some { otp := code, expiresAt := now + 5 * 60 * 1000, phone := phone,
                   villagerId := v.id, aadhaarNumber := v.aadhaar, attempts := 0 }
      ∧ (∃ n : Nat, code = Nat.repr n ∧ 100000 ≤ n ∧ n ≤ 999999 ∧ code.length = 6))
  ∧ countKey (sendOtp store db now rand phone).2 phone = 1
  ∧ (∀ p : String, p ≠ phone →
      storeGet (sendOtp store db now rand phone).2 p = storeGet store p)
  ∧ (∃ code : String, (resendOtp store db now rand phone).1 = .sent code
      ∧ storeGet (resendOtp store db now rand phone).2 phone
          = some { otp := code, expiresAt := now + 5 * 60 * 1000, phone := phone,
                   villagerId := v.id, aadhaarNumber := v.aadhaar, attempts := 0 }
      ∧ countKey (resendOtp store db now rand phone).2 phone = 1)
  ∧ keysNodup (sendOtp store db now rand phone).2
  ∧ keysNodup (resendOtp store db now rand phone).2
  ∧ (∀ otp : String, keysNodup (checkOtp store db now phone otp).2) := by
  have hcond : ¬ (phone.length ≠ 10) := by omega
  have hsend : sendOtp store db now rand phone
      = (.sent (Nat.repr (genOtpCode rand)),
         storeSet store phone
           { otp := Nat.repr (genOtpCode rand), expiresAt := now + 5 * 60 * 1000,
             phone := phone, villagerId := v.id, aadhaarNumber := v.aadhaar,
             attempts := 0 }) := by
    unfold sendOtp
    rw [if_neg hcond]
    simp only [hreg]
  have hpne : phone ≠ "" := by
    intro he
    rw [he] at hlen
    simp [String.length] at hlen
  have hresend : resendOtp store db now rand phone
      = (.sent (Nat.repr (genOtpCode rand)),
         storeSet (storeDelete store phone) phone
           { otp := Nat.repr (genOtpCode rand), expiresAt := now + 5 * 60 * 1000,
             phone := phone, villagerId := v.id, aadhaarNumber := v.aadhaar,
             attempts := 0 }) := by
    unfold resendOtp
    rw [if_neg hpne]
    simp only [hreg]
  have hlo : 100000 ≤ genOtpCode rand := Nat.le_add_right _ _
  have hhi : genOtpCode rand ≤ 999999 := by
    have := Nat.mod_lt rand (show 0 < 900000 by omega)
    unfold genOtpCode
    omega
  have hndsend : keysNodup (sendOtp store db now rand phone).2 := by
    rw [hsend]
    exact keysNodup_storeSet _ _ _ hnd
  have hndresend : keysNodup (resendOtp store db now rand phone).2 := by
    rw [hresend]
    exact keysNodup_storeSet _ _ _ (keysNodup_storeDelete _ _ hnd)
  refine ⟨⟨Nat.repr (genOtpCode rand), hsend, ?_, genOtpCode rand, rfl, hlo, hhi,
      repr_length_six _ hlo hhi⟩, ?_, ?_, ⟨Nat.repr (genOtpCode rand), ?_, ?_, ?_⟩,
      hndsend, hndresend, ?_⟩
  · rw [hsend]
    exact storeGet_set_self store phone _
  · exact countKey_eq_one _ phone _ hndsend (by rw [hsend]; exact storeGet_set_self store phone _)
  · intro p hne
    rw [hsend]
    exact storeGet_set_other store phone p _ hne
  · rw [hresend]
  · rw [hresend]
    exact storeGet_set_self (storeDelete store phone) phone _
  · exact countKey_eq_one _ phone _ hndresend
      (by rw [hresend]; exact storeGet_set_self (storeDelete store phone) phone _)
  · intro otp
    exact keysNodup_checkOtp store db now phone otp hnd

/-- C6 witness: a concrete send-otp issue for the demo villager leaves exactly
one record for the phone. -/
theorem c6_one_record_per_phone_witness :
    countKey (sendOtp demoStore demoDb 1000 1234 "9876543210").2 "9876543210" = 1 := by
  have h := c6_one_record_per_phone demoStore demoDb 1000 1234 "9876543210" demoVillager
    (by decide) (by decide) (by unfold keysNodup demoStore; decide)
  exact h.2.1

/-! ### Claim C8 -/

/-- C8: every villager-CRUD handler, given a bearer token whose claims do not
carry role admin (guests, villager tokens, garbage), answers 403 with
`success:false` and leaves the villagers table unchanged — the role check is
a pure predicate on the claims evaluated before any write. -/
theorem c8_admin_gate (h : Option String) (db : VillagerDb) (a : String)
    (b : VillagerBody) (u : VillagerUpdate)
    (hrole : (getUserFromToken h).role ≠ "admin") :
    getVillagers h db = ({ status := 403, success := false }, db)
  ∧ getVillager h db a = ({ status := 403, success := false }, db)
  ∧ postVillagers h db b = ({ status := 403, success := false }, db)
  ∧ putVillager h db a u = ({ status := 403, success := false }, db)
  ∧ deleteVillager h db a = ({ status := 403, success := false }, db) := by
  refine ⟨?_, ?_, ?_, ?_, ?_⟩
  · unfold getVillagers
    rw [if_pos hrole]
  · unfold getVillager
    rw [if_pos hrole]
  · unfold postVillagers
    rw [if_pos hrole]
  · unfold putVillager
    rw [if_pos hrole]
  · unfold deleteVillager
    rw [if_pos hrole]

/-- C8 witness: a concrete delete request with a villager token is refused
with 403 and the table is untouched. -/
theorem c8_admin_gate_witness :
    deleteVillager (some "villager-1-9876543210-7") demoDb "123412341234"
      = ({ status := 403, success := false }, demoDb) := by
  have h := c8_admin_gate (some "villager-1-9876543210-7") demoDb "123412341234"
    { aadhaarNumber := "", name := "", phone := "", village := "", panchayat := "",
      occupation := "", address := "" }
    { name := "", phone := "", village := "", panchayat := "", occupation := "",
      address := "" }
    (by decide)
  exact h.2.2.2.2

/-! ### Claim C10 -/

/-- C10: `getUserFromToken` is total over all header values — it is a pure
function that always yields a claims object whose role is exactly one of
guest, admin or villager — and every header whose (Bearer-stripped) token
neither starts with `token-` nor is a `villager-`-prefixed string with at
least four dash-separated parts whose fourth part parses as an integer is
classified as guest. -/
theorem c10_token_parsing_total (h : Option String) :
    ((getUserFromToken h).role = "guest" ∨ (getUserFromToken h).role = "admin"
      ∨ (getUserFromToken h).role = "villager")
  ∧ (∀ s : String, h = some s →
      jsStartsWith (if jsStartsWith s "Bearer " then jsDrop s 7 else s) "token-" = false →
      (jsStartsWith (if jsStartsWith s "Bearer " then jsDrop s 7 else s) "villager-" = true →
        (jsSplit (if jsStartsWith s "Bearer " then jsDrop s 7 else s) '-').length ≥ 4 →
        jsParseInt
          ((jsSplit (if jsStartsWith s "Bearer " then jsDrop s 7 else s) '-').getD 3 "")
          = none) →
      (getUserFromToken h).role = "guest") := by
  constructor
  · cases h with
    | none => exact Or.inl rfl
    | some s =>
      simp only [getUserFromToken]
      by_cases h0 : s = ""
      · rw [if_pos h0]; exact Or.inl rfl
      · rw [if_neg h0]
        repeat' split
        all_goals first
        | exact Or.inl rfl
        | exact Or.inr (Or.inl rfl)
        | exact Or.inr (Or.inr rfl)
  · intro s hs htok hvil
    subst hs
    simp only [getUserFromToken]
    by_cases h0 : s = ""
    · rw [if_pos h0]; rfl
    · rw [if_neg h0]
      simp only [htok, Bool.false_eq_true, if_false]
      by_cases hv : jsStartsWith (if jsStartsWith s "Bearer " then jsDrop s 7 else s)
          "villager-" = true
      · simp only [hv, if_true]
        by_cases hl : (jsSplit (if jsStartsWith s "Bearer " then jsDrop s 7 else s)
            '-').length ≥ 4
        · rw [if_pos hl, hvil hv hl]
          rfl
        · rw [if_neg hl]
          rfl
      · simp only [hv, if_false]
        rfl

/-- C10 witness: a garbage header is classified as guest. -/
theorem c10_token_parsing_total_witness :
    (getUserFromToken (some "garbage-header")).role = "guest" := by
  exact (c10_token_parsing_total (some "garbage-header")).2 "garbage-header" rfl
    (by decide) (by decide)
